import Mathlib

set_option linter.all false

/-! Shallow embedding of the OneChainTech/mcpManager pipeline
(src/main.py and src/mcp_service_manager.py): request normalization,
heuristic service resolution, request forwarding, response translation,
error surfacing, and the service-store update operation. -/

/-- JSON-like values as the Python code manipulates them: dicts are
association lists in insertion order, numbers are integers (no claim
depends on floats), Python `None` is `null`. -/
inductive Jv where
  | null
  | bool (b : Bool)
  | num (n : Int)
  | str (s : String)
  | arr (elems : List Jv)
  | obj (fields : List (String × Jv))

/-- First-match lookup in an association list (Python dict keys are unique,
so first-match agrees with dict lookup). -/
def jvLookup (k : String) : List (String × Jv) → Option Jv
  | [] => none
  | (k1, v) :: rest => if k1 = k then some v else jvLookup k rest

/-- Python `d.get(k, default)` on a dict; non-dicts never reach `.get` in
the modelled code paths. -/
def Jv.getD (j : Jv) (k : String) (d : Jv) : Jv :=
  match j with
  | .obj fs => (jvLookup k fs).getD d
  | _ => d

/-- Python `d.get(k)` (default `None`). -/
def Jv.get (j : Jv) (k : String) : Jv := j.getD k .null

/-- Python `k in d` (key membership test on a dict). -/
def Jv.hasKey (j : Jv) (k : String) : Bool :=
  match j with
  | .obj fs => (jvLookup k fs).isSome
  | _ => false

/-- Python truthiness of a JSON value. -/
def Jv.truthy : Jv → Bool
  | .null => false
  | .bool b => b
  | .num n => n != 0
  | .str s => s != ""
  | .arr es => !es.isEmpty
  | .obj fs => !fs.isEmpty

/-- Python `isinstance(v, dict)`. -/
def Jv.isObj : Jv → Bool
  | .obj _ => true
  | _ => false

/-- The string content of a string value, `none` otherwise. -/
def Jv.asStr : Jv → Option String
  | .str s => some s
  | _ => none

/-- Python `a or b`. -/
def pyOr (a b : Jv) : Jv := if a.truthy then a else b

/-- Python `a or b` on strings. -/
def pyStrOr (a b : String) : String := if a != "" then a else b

/-- Python `needle in hay` for strings: contiguous substring test,
modelled on the character lists. -/
def subCharList (needle : List Char) : List Char → Bool
  | [] => needle.isEmpty
  | c :: rest => List.isPrefixOf needle (c :: rest) || subCharList needle rest

/-- `strContains hay needle` is Python `needle in hay`. -/
def strContains (hay needle : String) : Bool :=
  subCharList needle.data hay.data

/-- Python `s.upper()` (the code only upper-cases ASCII verbs). -/
def strUpper (s : String) : String := ⟨s.data.map Char.toUpper⟩

/-- Python `s.lower()` (the code only lower-cases ASCII header text). -/
def strLower (s : String) : String := ⟨s.data.map Char.toLower⟩

/-- Python `s.endswith(c)` for a one-character suffix. -/
def endsWithChar (s : String) (c : Char) : Bool :=
  match s.data.getLast? with
  | some d => d == c
  | none => false

/-- Python `s[:-1]`. -/
def dropLastChar (s : String) : String := ⟨s.data.dropLast⟩

/-- Python `s.strip()`: remove surrounding whitespace. -/
def trimChars (s : String) : String :=
  ⟨((s.data.dropWhile Char.isWhitespace).reverse.dropWhile Char.isWhitespace).reverse⟩

/-! ## RequestNormalizer: src/main.py, proxy_call lines 119-158 -/

/-- The normalized per-call record after the merge stages of `proxy_call`
(the code keeps these in local variables). -/
structure NormReq where
  method : Jv
  path : Jv
  service_id : Jv
  service_name : Jv
  params : Jv
  json : Jv
  timeout : Jv
  headers : Jv

/-- Lines 120-127: plain `request_data.get(...)` for each field. -/
def extractTop (rd : Jv) : NormReq :=
  ⟨rd.get "method", rd.get "path", rd.get "service_id", rd.get "service_name",
   rd.get "params", rd.get "json", rd.get "timeout", rd.get "headers"⟩

/-- Line 138-140: the nested-`data` merge runs when the key `data` is
present and its value is a dict. -/
def dataActive (rd : Jv) : Bool := rd.hasKey "data" && (rd.get "data").isObj

/-- Lines 138-146: fill each field from `data` with Python `or`
(service_id and service_name are not merged from `data` in the code). -/
def mergeData (rd : Jv) (r : NormReq) : NormReq :=
  if dataActive rd then
    let d := rd.get "data"
    ⟨pyOr r.method (d.get "method"), pyOr r.path (d.get "path"),
     r.service_id, r.service_name,
     pyOr r.params (d.get "params"), pyOr r.json (d.get "json"),
     pyOr r.timeout (d.get "timeout"), pyOr r.headers (d.get "headers")⟩
  else r

/-- Line 150: the re-nested-params pass runs when `params` is a dict
containing the key `method`. -/
def renestTrigger (p : Jv) : Bool := p.isObj && p.hasKey "method"

/-- Lines 150-158: fill the scalar fields from the mis-nested `params`
dict with Python `or`, then reset `params` to `mcp_params.get("params", \x7b\x7d)`. -/
def renestParams (r : NormReq) : NormReq :=
  if renestTrigger r.params then
    let mcp := r.params
    ⟨pyOr r.method (mcp.get "method"), pyOr r.path (mcp.get "path"),
     r.service_id, r.service_name,
     mcp.getD "params" (.obj []), pyOr r.json (mcp.get "json"),
     pyOr r.timeout (mcp.get "timeout"), pyOr r.headers (mcp.get "headers")⟩
  else r

/-- The normalization merge of `proxy_call` (lines 119-158): top-level
extraction, then the nested-`data` pass, then the re-nested-`params` pass.
(The later string-to-JSON opportunistic parsing, lines 160-173, is a
separate stage not needed by the claims about the merge.) -/
def normalizeReq (rd : Jv) : NormReq := renestParams (mergeData rd (extractTop rd))

/-- Names of the five scalar fields that all three merge stages treat
alike. -/
inductive NField where
  | methodF
  | pathF
  | jsonF
  | timeoutF
  | headersF

/-- The payload key of a scalar field. -/
def NField.key : NField → String
  | .methodF => "method"
  | .pathF => "path"
  | .jsonF => "json"
  | .timeoutF => "timeout"
  | .headersF => "headers"

/-- Field accessor on the normalized record. -/
def NormReq.fld (r : NormReq) : NField → Jv
  | .methodF => r.method
  | .pathF => r.path
  | .jsonF => r.json
  | .timeoutF => r.timeout
  | .headersF => r.headers

/-! ## ServiceRegistry and ServiceResolver: src/mcp_service_manager.py and
src/main.py, proxy_call lines 176-212 -/

/-- A stored service descriptor (`UpstreamService`); optional JSON-mapping
columns are `Option` association lists (`None` versus stored dict). -/
structure Svc where
  id : Nat
  name : String
  summary : String
  url : String
  service_path : String
  method : String
  request_params : Option (List (String × Jv))
  response_params : Option (List (String × Jv))
  headers : Option (List (String × Jv))

/-- Line 186: `svc.service_path == path and svc.method.upper() == method.upper()`. -/
def exactMatch (s : Svc) (path method : String) : Bool :=
  s.service_path == path && strUpper s.method == strUpper method

/-- Line 193: `svc.service_path == path`. -/
def pathMatch (s : Svc) (path : String) : Bool :=
  s.service_path == path

/-- Line 200: `path in svc.service_path or svc.service_path in path`. -/
def subMatch (s : Svc) (path : String) : Bool :=
  strContains s.service_path path || strContains path s.service_path

/-- Lines 184-202 of `proxy_call`: three sequential scans of
`list_services` (registration order), each a first-hit loop with `break`. -/
def resolveHeuristic (svcs : List Svc) (path method : String) : Option Svc :=
  match svcs.find? (fun s => exactMatch s path method) with
  | some s => some s
  | none =>
    match svcs.find? (fun s => pathMatch s path) with
    | some s => some s
    | none => svcs.find? (fun s => subMatch s path)

/-- Lines 209-212: the detail string of the HTTP 400 raised when no
service matches heuristically. -/
def noMatchDetail (method path : String) : String :=
  "无法自动匹配服务，请明确指定 service_id 或 service_name。当前请求: " ++ method ++ " " ++ path

/-- Lines 184-212 as one step: heuristic resolution, raising 400 with
`noMatchDetail` when no pass matches. -/
def resolveService (svcs : List Svc) (path method : String) : Except (Nat × String) Svc :=
  match resolveHeuristic svcs path method with
  | some s => .ok s
  | none => .error (400, noMatchDetail method path)

/-! ## RequestForwarder: src/main.py, proxy_call lines 237-269 -/

/-- The outbound HTTP request assembled by `proxy_call` just before
`client.request(...)` on line 262. -/
structure Outbound where
  method : String
  path : Jv
  headers : Jv
  params : Jv
  json : Jv
  timeout : Jv
  baseUrl : String

/-- Lines 247-248 (and 86-87): drop one trailing slash of the base URL. -/
def stripTrailingSlash (u : String) : String :=
  if endsWithChar u '/' then dropLastChar u else u

/-- `svc.request_params` as the Python value it holds (`None` or a dict). -/
def svcDefaultParams (s : Svc) : Jv :=
  match s.request_params with
  | some fs => .obj fs
  | none => .null

/-- Lines 258-261: default the Content-Type header. `None` headers become
the JSON-content dict; a dict gets `Content-Type` appended unless a key
equal to `Content-Type` or case-insensitively equal to `content-type` is
present. A non-dict, non-None headers value makes the Python call crash
before or inside the client call, modelled as `none`. -/
def withContentType (h : Jv) : Option Jv :=
  match h with
  | .null => some (.obj [("Content-Type", .str "application/json")])
  | .obj fs =>
    if fs.any (fun kv => kv.1 == "Content-Type") then some (.obj fs)
    else if fs.any (fun kv => strLower kv.1 == "content-type") then some (.obj fs)
    else some (.obj (fs ++ [("Content-Type", .str "application/json")]))
  | _ => none

/-- Lines 238-239: `if not method: method = svc.method or "GET"`. -/
def mergeOutMethod (svc : Svc) (method : Jv) : Jv :=
  if method.truthy then method else .str (pyStrOr svc.method "GET")

/-- Lines 241-242: `if not params and svc.request_params: params = dict(...)`. -/
def mergeOutParams (svc : Svc) (params : Jv) : Jv :=
  if !params.truthy && (svcDefaultParams svc).truthy then svcDefaultParams svc else params

/-- Line 256: `request_path = svc.service_path if svc.service_path else path`. -/
def outboundPath (svc : Svc) (path : Jv) : Jv :=
  if svc.service_path != "" then Jv.str svc.service_path else path

/-- Line 254: `req_timeout = timeout if timeout is not None else DEFAULT`. -/
def resolvedTimeout (defaultTimeout timeout : Jv) : Jv :=
  match timeout with
  | .null => defaultTimeout
  | t => t

/-- Lines 237-269 of `proxy_call` up to the outbound `client.request`:
merge the normalized fields with the descriptor's defaults. `none` models
a Python exception before the request is issued (`method.upper()` on a
truthy non-string, or unusable headers); the code performs no whitelist
check on the merged method. -/
def proxyForward (defaultTimeout : Jv) (svc : Svc)
    (method path params json timeout headers : Jv) : Option Outbound :=
  match (mergeOutMethod svc method).asStr, withContentType headers with
  | some ms, some hs =>
    some ⟨strUpper ms, outboundPath svc path, hs, mergeOutParams svc params, json,
      resolvedTimeout defaultTimeout timeout, stripTrailingSlash svc.url⟩
  | _, _ => none

/-- The four explicit send branches of `mcp_simple_call`, lines 396-427. -/
inductive SendKind where
  | getReq
  | postReq
  | putReq
  | deleteReq

/-- Lines 396-427 of `mcp_simple_call`: dispatch on `method.upper()`;
any other verb raises HTTP 400 before any request is issued. -/
def mcpDispatch (method : String) : Except (Nat × String) SendKind :=
  if strUpper method == "GET" then .ok .getReq
  else if strUpper method == "POST" then .ok .postReq
  else if strUpper method == "PUT" then .ok .putReq
  else if strUpper method == "DELETE" then .ok .deleteReq
  else .error (400, "不支持的HTTP方法: " ++ method)

/-! ## ResponseTranslator: src/main.py, proxy_call lines 271-279 -/

/-- The uniform response envelope returned to the caller. -/
structure Envelope where
  status : Nat
  body : Jv

/-- Lines 271-279: lowercase the content-type header (empty when absent);
if it contains `application/json` try `resp.json()` (modelled by the
`parse` argument), else wrap raw text and the content type. -/
def translateResponse (status : Nat) (contentTypeHeader : Option String)
    (text : String) (parse : String → Option Jv) : Envelope :=
  let ct := strLower (contentTypeHeader.getD "")
  if strContains ct "application/json" then
    match parse text with
    | some j => ⟨status, j⟩
    | none => ⟨status, .obj [("raw", .str text)]⟩
  else
    ⟨status, .obj [("raw", .str text), ("content_type", .str ct)]⟩

/-! ## Error surfacing: src/main.py lines 281-282 and 441-444 -/

/-- Failures the outbound httpx call can raise. In httpx every one of
these classes derives `HTTPError`: `TimeoutException` and `ConnectError`
extend `TransportError`, which extends `RequestError`, which extends
`HTTPError`. -/
inductive UpstreamFailure where
  | timeoutExpired
  | connectFailure
  | otherTransport

/-- Membership in `httpx.TimeoutException`. -/
def isTimeoutException : UpstreamFailure → Bool
  | .timeoutExpired => true
  | _ => false

/-- Membership in `httpx.RequestError` (all modelled failures are). -/
def isRequestError : UpstreamFailure → Bool
  | _ => true

/-- Membership in `httpx.HTTPError` (all modelled failures are). -/
def isHTTPError : UpstreamFailure → Bool
  | _ => true

/-- Lines 281-282 of `proxy_call`: the only handler is
`except httpx.HTTPError`, surfacing status 502 (500 would be the framework
fallback for an uncaught exception). -/
def proxyCallErrorStatus (e : UpstreamFailure) : Nat :=
  if isHTTPError e then 502 else 500

/-- Lines 441-444 of `mcp_simple_call`: `except httpx.TimeoutException`
surfaces 408, then `except httpx.RequestError` surfaces 502. -/
def mcpCallErrorStatus (e : UpstreamFailure) : Nat :=
  if isTimeoutException e then 408
  else if isRequestError e then 502
  else 500

/-! ## Service updates: src/mcp_service_manager.py lines 56-78 and 146-174 -/

/-- `_normalize_base_url` (lines 56-63): empty stays empty, otherwise
strip surrounding whitespace and drop one trailing slash. -/
def normalizeBaseUrl (url : String) : String :=
  if url = "" then url
  else
    let u := trimChars url
    if endsWithChar u '/' then dropLastChar u else u

/-- `_parse_json_params` (lines 66-78): `None` stays `None`, a dict is
kept, a string is JSON-parsed (kept only when the parse yields a dict),
anything else becomes `None`. `parse` models `json.loads`. -/
def parseJsonParams (parse : String → Option Jv) : Jv → Option (List (String × Jv))
  | .null => none
  | .obj fs => some fs
  | .str s =>
    match parse s with
    | some (.obj fs) => some fs
    | _ => none
  | _ => none

/-- `payload.get(k) or old` for a string column: a truthy string wins,
any falsy value keeps the old one. (A truthy non-string would be stored
as-is by the dynamically typed Python; the typed embedding keeps such
payloads out of scope and retains the old value.) -/
def strFieldOr (v : Jv) (old : String) : String :=
  match v.asStr with
  | some s => if s != "" then s else old
  | none => old

/-- Lines 160-163: `method` updates only when not `None`; a falsy value
becomes `GET`; the result is uppercased. -/
def methodUpdate (hm : Jv) (old : String) : String :=
  match hm with
  | .null => old
  | .str s => strUpper (if s != "" then s else "GET")
  | v => if v.truthy then old else "GET"

/-- `MCPServiceManager.update_service` field logic (lines 152-169): each
column is touched only when its key is present in the payload. -/
def update_service (parse : String → Option Jv) (svc : Svc) (payload : Jv) : Svc :=
  let n1 := if payload.hasKey "name" then strFieldOr (payload.get "name") svc.name else svc.name
  let s1 := if payload.hasKey "summary" then strFieldOr (payload.get "summary") svc.summary else svc.summary
  let u1 := if payload.hasKey "url" then normalizeBaseUrl (strFieldOr (payload.get "url") svc.url) else svc.url
  let p1 := if payload.hasKey "service_path" then trimChars (strFieldOr (payload.get "service_path") "") else svc.service_path
  let m1 := if payload.hasKey "method" then methodUpdate (payload.get "method") svc.method else svc.method
  let rp := if payload.hasKey "request_params" then parseJsonParams parse (payload.get "request_params") else svc.request_params
  let sp := if payload.hasKey "response_params" then parseJsonParams parse (payload.get "response_params") else svc.response_params
  let hd := if payload.hasKey "headers" then parseJsonParams parse (payload.get "headers") else svc.headers
  ⟨svc.id, n1, s1, u1, p1, m1, rp, sp, hd⟩

/-- `update_service` at the store level (lines 146-150 plus commit):
primary-key lookup, 404 before any mutation when the id is unknown,
otherwise the stored row is replaced by the updated descriptor. The pair
returns the endpoint result and the store after the call. -/
def storeUpdate (parse : String → Option Jv) (store : List Svc) (sid : Nat)
    (payload : Jv) : Except (Nat × String) Svc × List Svc :=
  match store.find? (fun s => s.id == sid) with
  | none => (.error (404, "服务不存在"), store)
  | some svc =>
    let updated := update_service parse svc payload
    (.ok updated, store.map (fun s => if s.id == sid then updated else s))

/-! ## Concrete instances used by counterexamples and witnesses -/

/-- Selector for the three JSON-mapping columns `_parse_json_params`
guards in `update_service`. -/
inductive JField where
  | reqP
  | respP
  | hdrs

/-- The payload key of a JSON-mapping column. -/
def JField.key : JField → String
  | .reqP => "request_params"
  | .respP => "response_params"
  | .hdrs => "headers"

/-- The stored column a `JField` selects. -/
def Svc.jfield (s : Svc) : JField → Option (List (String × Jv))
  | .reqP => s.request_params
  | .respP => s.response_params
  | .hdrs => s.headers

/-- The method whitelist named by the spec for the forwarder merge. -/
def claimAllowedMethods : List String :=
  ["GET", "POST", "PUT", "PATCH", "DELETE", "HEAD", "OPTIONS"]

/-- The verb set `mcp_simple_call` actually dispatches. -/
def mcpAllowedMethods : List String :=
  ["GET", "POST", "PUT", "DELETE"]

/-- Number of keys of a JSON object (discriminator for disequalities). -/
def jvFieldCount : Jv → Nat
  | .obj fs => fs.length
  | _ => 0

/-- C5 counterexample payload: a non-empty top-level `params` mapping that
itself contains `method` and a nested `params`. -/
def rdC5 : Jv :=
  .obj [("params", .obj [("method", .str "GET"), ("params", .obj [("q", .num 1)])])]

/-- C2 counterexample descriptor (empty servicePath, default GET). -/
def svcC2 : Svc := ⟨1, "c", "", "http://u", "", "GET", none, none, none⟩

/-- C3 counterexample registry entry. -/
def svcC3 : Svc := ⟨1, "alpha", "", "http://u", "/a", "GET", none, none, none⟩

/-- C4 counterexample: earlier-registered descriptor, path `/x`, method POST. -/
def svcC4a : Svc := ⟨1, "alpha", "", "http://u", "/x", "POST", none, none, none⟩

/-- C4 counterexample: later-registered descriptor, path `/x`, method GET. -/
def svcC4b : Svc := ⟨2, "beta", "", "http://u", "/x", "GET", none, none, none⟩

/-- C4 witness pair: same path and same method-match status. -/
def svcC4w1 : Svc := ⟨1, "w1", "", "http://u", "/x", "GET", none, none, none⟩

/-- C4 witness pair, later registration. -/
def svcC4w2 : Svc := ⟨2, "w2", "", "http://u", "/x", "GET", none, none, none⟩

/-- C7 witness descriptor with a non-empty servicePath. -/
def svcC7 : Svc := ⟨1, "s", "", "http://u", "/sp", "GET", none, none, none⟩

/-- The outbound request `proxyForward` assembles for the C7 witness call. -/
def obC7 : Outbound :=
  ⟨"GET", .str "/sp", .obj [("Content-Type", .str "application/json")], .null, .null,
   .num 15, "http://u"⟩

/-- C8 witness descriptor. -/
def svcC8 : Svc := ⟨3, "n", "s", "http://u", "/p", "GET", some [("a", .num 1)], none, none⟩

/-- C10 counterexample descriptor: its stored url ends in a slash, a state
`create_service` itself produces from input `http://a///`. -/
def svcC10 : Svc := ⟨1, "u", "", "http://a//", "", "GET", none, none, none⟩

/-- C5 witness payload: a plain top-level method. -/
def rdC5w : Jv := .obj [("method", .str "POST")]

/-- C9 witness payload: `params` is a mapping containing `method` but no
nested `params` entry. -/
def rdC9 : Jv := .obj [("params", .obj [("method", .str "GET")])]

/-- C10 witness update payload: null name, null url, unparseable
request_params string. -/
def payC10 : Jv := .obj [("name", .null), ("url", .null), ("request_params", .str "nojson")]

/-! ## Helper lemmas about the normalization stages -/

theorem pyOr_of_truthy (a b : Jv) (h : a.truthy = true) : pyOr a b = a := by
  simp [pyOr, h]

theorem pyOr_of_falsy (a b : Jv) (h : a.truthy = false) : pyOr a b = b := by
  simp [pyOr, h]

theorem extractTop_fld (rd : Jv) (f : NField) :
    (extractTop rd).fld f = rd.get (NField.key f) := by
  cases f <;> rfl

theorem extractTop_params (rd : Jv) : (extractTop rd).params = rd.get "params" := rfl

theorem mergeData_fld (rd : Jv) (r : NormReq) (f : NField) :
    (mergeData rd r).fld f =
      if dataActive rd then pyOr (r.fld f) ((rd.get "data").get (NField.key f))
      else r.fld f := by
  cases f <;> simp only [NormReq.fld, NField.key, mergeData] <;> split <;> rfl

theorem mergeData_params (rd : Jv) (r : NormReq) :
    (mergeData rd r).params =
      if dataActive rd then pyOr r.params ((rd.get "data").get "params")
      else r.params := by
  unfold mergeData
  split <;> rfl

theorem renestParams_fld (r : NormReq) (f : NField) :
    (renestParams r).fld f =
      if renestTrigger r.params then pyOr (r.fld f) (r.params.get (NField.key f))
      else r.fld f := by
  cases f <;> simp only [NormReq.fld, NField.key, renestParams] <;> split <;> rfl

theorem renestParams_params (r : NormReq) :
    (renestParams r).params =
      if renestTrigger r.params then r.params.getD "params" (.obj [])
      else r.params := by
  unfold renestParams
  split <;> rfl

/-! ## Claim C1: timeout surfacing -/

/-- C1 counterexample: a timeout is an `httpx.TimeoutException`, yet
`proxy_call` surfaces it as 502, not 408, because its only handler is
`except httpx.HTTPError` and `TimeoutException` derives `HTTPError`. -/
theorem c1_counterexample :
    isTimeoutException UpstreamFailure.timeoutExpired = true ∧
    proxyCallErrorStatus UpstreamFailure.timeoutExpired = 502 ∧
    proxyCallErrorStatus UpstreamFailure.timeoutExpired ≠ 408 :=
  ⟨rfl, rfl, by decide⟩

/-- C1 amended: only `mcp_simple_call` surfaces a timeout as 408;
`proxy_call` surfaces every httpx failure, timeouts included, as 502, and
`mcp_simple_call` surfaces every non-timeout request failure as 502. -/
theorem c1_amended :
    mcpCallErrorStatus .timeoutExpired = 408 ∧
    (∀ e : UpstreamFailure, proxyCallErrorStatus e = 502) ∧
    (∀ e : UpstreamFailure, isTimeoutException e = false → mcpCallErrorStatus e = 502) := by
  refine ⟨rfl, ?_, ?_⟩
  · intro e
    cases e <;> rfl
  · intro e he
    cases e
    · cases he
    · rfl
    · rfl

/-- C1 witness: the amended theorem applied to a connection failure. -/
theorem c1_amended_witness :
    isTimeoutException UpstreamFailure.connectFailure = false ∧
    mcpCallErrorStatus UpstreamFailure.connectFailure = 502 :=
  ⟨rfl, c1_amended.2.2 UpstreamFailure.connectFailure rfl⟩

/-! ## Claim C2: method whitelist -/

/-- C2 counterexample: `proxy_call` forwards the unsupported verb `FOO`
without any validation, and `mcp_simple_call` rejects `PATCH` with 400
even though the claim's whitelist allows it. -/
theorem c2_counterexample :
    (proxyForward (.num 15) svcC2 (.str "FOO") (.str "/p") .null .null .null .null).map
        Outbound.method = some "FOO" ∧
    claimAllowedMethods.contains "FOO" = false ∧
    claimAllowedMethods.contains "PATCH" = true ∧
    mcpDispatch "PATCH" = .error (400, "不支持的HTTP方法: PATCH") :=
  ⟨rfl, by decide, by decide, rfl⟩

/-- C2 amended: `proxy_call` applies no whitelist at all — any non-empty
method string is uppercased and forwarded — while `mcp_simple_call`
dispatches exactly GET, POST, PUT, DELETE and fails 400 on anything else
before issuing a request. -/
theorem c2_amended :
    (∀ (dt : Jv) (svc : Svc) (ms : String) (path params json timeout headers : Jv),
      ms ≠ "" → withContentType headers ≠ none →
      (proxyForward dt svc (.str ms) path params json timeout headers).map Outbound.method =
        some (strUpper ms)) ∧
    (∀ m : String, strUpper m ∉ mcpAllowedMethods →
      mcpDispatch m = .error (400, "不支持的HTTP方法: " ++ m)) ∧
    (∀ m : String, strUpper m ∈ mcpAllowedMethods → ∃ k, mcpDispatch m = .ok k) := by
  refine ⟨?_, ?_, ?_⟩
  · intro dt svc ms path params json timeout headers hms hh
    cases hct : withContentType headers with
    | none => exact absurd hct hh
    | some hs =>
      have hm : (mergeOutMethod svc (.str ms)).asStr = some ms := by
        simp [mergeOutMethod, Jv.truthy, Jv.asStr, hms]
      simp [proxyForward, hm, hct]
  · intro m hm
    simp only [mcpAllowedMethods, List.mem_cons, List.not_mem_nil, or_false, not_or] at hm
    obtain ⟨h1, h2, h3, h4⟩ := hm
    simp [mcpDispatch, h1, h2, h3, h4]
  · intro m hm
    simp only [mcpAllowedMethods, List.mem_cons, List.not_mem_nil, or_false] at hm
    rcases hm with h | h | h | h
    · exact ⟨.getReq, by simp [mcpDispatch, h]⟩
    · exact ⟨.postReq, by simp [mcpDispatch, h]⟩
    · exact ⟨.putReq, by simp [mcpDispatch, h]⟩
    · exact ⟨.deleteReq, by simp [mcpDispatch, h]⟩

/-- C2 witness: the amended theorem applied to the verb PATCH. -/
theorem c2_amended_witness :
    strUpper "PATCH" ∉ mcpAllowedMethods ∧
    mcpDispatch "PATCH" = .error (400, "不支持的HTTP方法: PATCH") :=
  ⟨by decide, c2_amended.2.1 "PATCH" (by decide)⟩

/-! ## Claim C3: no-match error message -/

/-- C3 counterexample: with one registered service `alpha (GET /a)` and an
unmatchable request, the 400 detail does not contain the enumeration entry
`alpha (GET /a)` — it does not even contain the service name. -/
theorem c3_counterexample :
    resolveHeuristic [svcC3] "/zzz" "GET" = none ∧
    resolveService [svcC3] "/zzz" "GET" = .error (400, noMatchDetail "GET" "/zzz") ∧
    strContains (noMatchDetail "GET" "/zzz") "alpha (GET /a)" = false ∧
    strContains (noMatchDetail "GET" "/zzz") "alpha" = false :=
  ⟨rfl, rfl, rfl, rfl⟩

/-- C3 amended: when all three heuristic passes miss, the call fails with
status 400 whose detail only echoes the requested method and path
(`无法自动匹配服务…当前请求: METHOD PATH`), with no service enumeration. -/
theorem c3_amended (svcs : List Svc) (path method : String)
    (h : resolveHeuristic svcs path method = none) :
    resolveService svcs path method =
      .error (400,
        "无法自动匹配服务，请明确指定 service_id 或 service_name。当前请求: " ++ method ++ " " ++ path) := by
  unfold resolveService noMatchDetail
  rw [h]

/-- C3 witness: the amended theorem applied to the empty registry. -/
theorem c3_amended_witness :
    resolveHeuristic ([] : List Svc) "/q" "GET" = none ∧
    resolveService ([] : List Svc) "/q" "GET" =
      .error (400,
        "无法自动匹配服务，请明确指定 service_id 或 service_name。当前请求: " ++ "GET" ++ " " ++ "/q") :=
  ⟨rfl, c3_amended [] "/q" "GET" rfl⟩

/-! ## Claim C4: three-pass heuristic resolution -/

/-- C4 counterexample: two descriptors whose servicePath both equal `/x`,
but the later-registered one wins because only it matches the requested
method in the exact-match pass — refuting "the earlier-registered one is
always selected". -/
theorem c4_counterexample :
    svcC4a.service_path = "/x" ∧ svcC4b.service_path = "/x" ∧
    resolveHeuristic [svcC4a, svcC4b] "/x" "GET" = some svcC4b ∧
    resolveHeuristic [svcC4a, svcC4b] "/x" "GET" ≠ some svcC4a := by
  refine ⟨rfl, rfl, rfl, ?_⟩
  intro h
  have h2 : some svcC4b = some svcC4a := Eq.trans (by rfl) h
  exact absurd (congrArg Svc.id (Option.some.inj h2)) (by decide)

/-- C4 amended: resolution is three ordered first-hit passes (exact,
path-only, substring), every result comes from the registry, and for two
same-path descriptors the earlier-registered one wins exactly when both
have the same exact-match status — a later exact match beats an earlier
path-only match. -/
theorem c4_amended :
    (∀ (svcs : List Svc) (path method : String) (s : Svc),
      svcs.find? (fun t => exactMatch t path method) = some s →
      resolveHeuristic svcs path method = some s) ∧
    (∀ (svcs : List Svc) (path method : String) (s : Svc),
      svcs.find? (fun t => exactMatch t path method) = none →
      svcs.find? (fun t => pathMatch t path) = some s →
      resolveHeuristic svcs path method = some s) ∧
    (∀ (svcs : List Svc) (path method : String),
      svcs.find? (fun t => exactMatch t path method) = none →
      svcs.find? (fun t => pathMatch t path) = none →
      resolveHeuristic svcs path method = svcs.find? (fun t => subMatch t path)) ∧
    (∀ (svcs : List Svc) (path method : String) (s : Svc),
      resolveHeuristic svcs path method = some s → s ∈ svcs) ∧
    (∀ (d1 d2 : Svc) (path method : String),
      d1.service_path = path → d2.service_path = path →
      exactMatch d1 path method = exactMatch d2 path method →
      resolveHeuristic [d1, d2] path method = some d1) := by
  refine ⟨?_, ?_, ?_, ?_, ?_⟩
  · intro svcs path method s h
    unfold resolveHeuristic
    rw [h]
  · intro svcs path method s h1 h2
    unfold resolveHeuristic
    rw [h1, h2]
  · intro svcs path method h1 h2
    unfold resolveHeuristic
    rw [h1, h2]
  · intro svcs path method s h
    unfold resolveHeuristic at h
    cases h1 : svcs.find? (fun t => exactMatch t path method) with
    | some t =>
      rw [h1] at h
      cases h
      exact List.mem_of_find?_eq_some h1
    | none =>
      rw [h1] at h
      cases h2 : svcs.find? (fun t => pathMatch t path) with
      | some t =>
        rw [h2] at h
        cases h
        exact List.mem_of_find?_eq_some h2
      | none =>
        rw [h2] at h
        exact List.mem_of_find?_eq_some h
  · intro d1 d2 path method h1 h2 he
    cases hb : exactMatch d1 path method with
    | true =>
      unfold resolveHeuristic
      simp [List.find?, hb]
    | false =>
      have hb2 : exactMatch d2 path method = false := he ▸ hb
      unfold resolveHeuristic
      simp [List.find?, hb, hb2, pathMatch, h1]

/-- C4 witness: the amended determinism clause applied to two descriptors
with equal path and equal method-match status; the earlier one wins. -/
theorem c4_amended_witness :
    svcC4w1.service_path = "/x" ∧ svcC4w2.service_path = "/x" ∧
    exactMatch svcC4w1 "/x" "GET" = exactMatch svcC4w2 "/x" "GET" ∧
    resolveHeuristic [svcC4w1, svcC4w2] "/x" "GET" = some svcC4w1 :=
  ⟨rfl, rfl, rfl, c4_amended.2.2.2.2 svcC4w1 svcC4w2 "/x" "GET" rfl rfl rfl⟩

/-! ## Claim C5: fill-if-missing normalization -/

/-- C5 counterexample: a non-empty top-level `params` mapping that
contains the key `method` is overwritten by its nested `params` entry
during normalization, so "a non-empty top-level value is never overwritten
by a nested alternative" fails for the `params` field. -/
theorem c5_counterexample :
    (rdC5.get "params").truthy = true ∧
    (normalizeReq rdC5).params = .obj [("q", .num 1)] ∧
    (normalizeReq rdC5).params ≠ rdC5.get "params" :=
  ⟨rfl, rfl, fun h => absurd (congrArg jvFieldCount h) (by decide)⟩

/-- C5 amended: fill-if-missing holds unconditionally for method, path,
json, timeout and headers (truthy top-level kept; falsy filled from
nested `data`, else from the re-nested `params` mapping), and for `params`
itself only as long as the merged params value is not a mapping containing
the key `method` — in that case it is replaced by its nested entry. -/
theorem c5_amended (rd : Jv) (f : NField) :
    ((rd.get (NField.key f)).truthy = true →
      (normalizeReq rd).fld f = rd.get (NField.key f)) ∧
    ((rd.get (NField.key f)).truthy = false → dataActive rd = true →
      ((rd.get "data").get (NField.key f)).truthy = true →
      (normalizeReq rd).fld f = (rd.get "data").get (NField.key f)) ∧
    ((rd.get (NField.key f)).truthy = false →
      (dataActive rd = true → ((rd.get "data").get (NField.key f)).truthy = false) →
      renestTrigger ((mergeData rd (extractTop rd)).params) = true →
      (normalizeReq rd).fld f = ((mergeData rd (extractTop rd)).params).get (NField.key f)) ∧
    ((rd.get "params").truthy = true → renestTrigger (rd.get "params") = false →
      (normalizeReq rd).params = rd.get "params") := by
  have hfld1 : (mergeData rd (extractTop rd)).fld f =
      if dataActive rd then pyOr (rd.get (NField.key f)) ((rd.get "data").get (NField.key f))
      else rd.get (NField.key f) := by
    rw [mergeData_fld, extractTop_fld]
  refine ⟨?_, ?_, ?_, ?_⟩
  · intro ht
    have h1 : (mergeData rd (extractTop rd)).fld f = rd.get (NField.key f) := by
      rw [hfld1]
      split
      · exact pyOr_of_truthy _ _ ht
      · rfl
    unfold normalizeReq
    rw [renestParams_fld, h1]
    split
    · exact pyOr_of_truthy _ _ ht
    · rfl
  · intro ht hd hdt
    have h1 : (mergeData rd (extractTop rd)).fld f = (rd.get "data").get (NField.key f) := by
      rw [hfld1, if_pos hd]
      exact pyOr_of_falsy _ _ ht
    unfold normalizeReq
    rw [renestParams_fld, h1]
    split
    · exact pyOr_of_truthy _ _ hdt
    · rfl
  · intro ht hd htrig
    have h1 : ((mergeData rd (extractTop rd)).fld f).truthy = false := by
      rw [hfld1]
      split
      · rename_i hda
        rw [pyOr_of_falsy _ _ ht]
        exact hd hda
      · exact ht
    unfold normalizeReq
    rw [renestParams_fld, if_pos htrig]
    exact pyOr_of_falsy _ _ h1
  · intro ht htrig
    have h1 : (mergeData rd (extractTop rd)).params = rd.get "params" := by
      rw [mergeData_params, extractTop_params]
      split
      · exact pyOr_of_truthy _ _ ht
      · rfl
    unfold normalizeReq
    rw [renestParams_params, h1, if_neg]
    rw [htrig]
    exact fun hh => Bool.false_ne_true hh

/-- C5 witness: the amended keep-clause applied to a truthy top-level
method. -/
theorem c5_amended_witness :
    ((rdC5w.get "method").truthy = true) ∧
    (normalizeReq rdC5w).fld .methodF = rdC5w.get "method" :=
  ⟨rfl, (c5_amended rdC5w .methodF).1 rfl⟩

/-! ## Claim C6: response translation -/

/-- C6: the envelope's status always equals the upstream status; a
content-type containing `application/json` yields the parsed body or the
raw-text fallback when parsing fails; any other content-type yields the
raw text together with the (lower-cased, as the code observes it)
content-type value. -/
theorem c6_translator (status : Nat) (cth : Option String) (text : String)
    (parse : String → Option Jv) :
    (translateResponse status cth text parse).status = status ∧
    (strContains (strLower (cth.getD "")) "application/json" = true →
      ∀ j, parse text = some j → (translateResponse status cth text parse).body = j) ∧
    (strContains (strLower (cth.getD "")) "application/json" = true → parse text = none →
      (translateResponse status cth text parse).body = .obj [("raw", .str text)]) ∧
    (strContains (strLower (cth.getD "")) "application/json" = false →
      (translateResponse status cth text parse).body =
        .obj [("raw", .str text), ("content_type", .str (strLower (cth.getD "")))]) := by
  refine ⟨?_, ?_, ?_, ?_⟩
  · cases hp : parse text <;>
      cases hc : strContains (strLower (cth.getD "")) "application/json" <;>
        simp [translateResponse, hp, hc]
  · intro hct j hp
    simp [translateResponse, hct, hp]
  · intro hct hp
    simp [translateResponse, hct, hp]
  · intro hct
    simp [translateResponse, hct]

/-- C6 witness: a JSON content-type whose body fails to parse falls back
to the raw wrapper, status preserved. -/
theorem c6_witness :
    strContains (strLower ((some "application/json" : Option String).getD ""))
      "application/json" = true ∧
    (translateResponse 201 (some "application/json") "oops" (fun _ => none)).status = 201 ∧
    (translateResponse 201 (some "application/json") "oops" (fun _ => none)).body =
      .obj [("raw", .str "oops")] :=
  ⟨rfl, (c6_translator 201 (some "application/json") "oops" (fun _ => none)).1,
   (c6_translator 201 (some "application/json") "oops" (fun _ => none)).2.2.1 rfl rfl⟩

/-! ## Claim C7: outbound path override -/

/-- C7: whenever `proxy_call` assembles an outbound request, its path is
the descriptor's servicePath when that is non-empty, and the canonical
caller path only when the servicePath is empty. -/
theorem c7_outbound_path (dt : Jv) (svc : Svc)
    (method path params json timeout headers : Jv) (ob : Outbound)
    (h : proxyForward dt svc method path params json timeout headers = some ob) :
    (svc.service_path ≠ "" → ob.path = .str svc.service_path) ∧
    (svc.service_path = "" → ob.path = path) := by
  cases hm : (mergeOutMethod svc method).asStr with
  | none => simp [proxyForward, hm] at h
  | some ms =>
    cases hct : withContentType headers with
    | none => simp [proxyForward, hm, hct] at h
    | some hs =>
      simp only [proxyForward, hm, hct] at h
      have h2 := Option.some.inj h
      subst h2
      constructor
      · intro hx
        simp [outboundPath, hx]
      · intro hx
        simp [outboundPath, hx]

/-- C7 witness: a descriptor whose servicePath `/sp` overrides the
caller-supplied path `/p`. -/
theorem c7_witness :
    svcC7.service_path ≠ "" ∧ obC7.path = .str svcC7.service_path :=
  ⟨by decide,
   (c7_outbound_path (.num 15) svcC7 (.str "GET") (.str "/p") .null .null .null .null obC7
      rfl).1 (by decide)⟩

/-! ## Claim C8: partial-update frame -/

/-- C8: updating an unknown id fails 404 and returns the store unchanged,
and for a found descriptor every column whose key is absent from the
update payload keeps its previous value (the id is never touched). -/
theorem c8_update_frame :
    (∀ (parse : String → Option Jv) (store : List Svc) (sid : Nat) (payload : Jv),
      store.find? (fun s => s.id == sid) = none →
      storeUpdate parse store sid payload = (.error (404, "服务不存在"), store)) ∧
    (∀ (parse : String → Option Jv) (svc : Svc) (payload : Jv),
      (update_service parse svc payload).id = svc.id ∧
      (payload.hasKey "name" = false → (update_service parse svc payload).name = svc.name) ∧
      (payload.hasKey "summary" = false →
        (update_service parse svc payload).summary = svc.summary) ∧
      (payload.hasKey "url" = false → (update_service parse svc payload).url = svc.url) ∧
      (payload.hasKey "service_path" = false →
        (update_service parse svc payload).service_path = svc.service_path) ∧
      (payload.hasKey "method" = false →
        (update_service parse svc payload).method = svc.method) ∧
      (payload.hasKey "request_params" = false →
        (update_service parse svc payload).request_params = svc.request_params) ∧
      (payload.hasKey "response_params" = false →
        (update_service parse svc payload).response_params = svc.response_params) ∧
      (payload.hasKey "headers" = false →
        (update_service parse svc payload).headers = svc.headers)) := by
  constructor
  · intro parse store sid payload h
    unfold storeUpdate
    rw [h]
  · intro parse svc payload
    refine ⟨rfl, ?_, ?_, ?_, ?_, ?_, ?_, ?_, ?_⟩ <;>
      (intro h; simp [update_service, h])

/-- C8 witness: a summary-only payload leaves the name unchanged, and an
unknown id yields 404 with the store intact. -/
theorem c8_witness :
    ((Jv.obj [("summary", Jv.str "s2")]).hasKey "name" = false) ∧
    (update_service (fun _ => none) svcC8 (.obj [("summary", .str "s2")])).name = svcC8.name ∧
    (List.find? (fun s => s.id == 99) [svcC8] = none) ∧
    storeUpdate (fun _ => none) [svcC8] 99 (.obj []) = (.error (404, "服务不存在"), [svcC8]) :=
  ⟨rfl, (c8_update_frame.2 (fun _ => none) svcC8 (.obj [("summary", .str "s2")])).2.1 rfl,
   rfl, c8_update_frame.1 (fun _ => none) [svcC8] 99 (.obj []) rfl⟩

/-! ## Claim C9: the re-nested-params trigger -/

/-- C9: the re-nested extraction fires exactly when the merged `params`
value is a mapping containing the key `method`; it then replaces the
query parameters with the nested `params` entry (empty mapping when
absent), and otherwise `params` passes through unchanged. -/
theorem c9_renest (rd : Jv) :
    (∀ fs, (mergeData rd (extractTop rd)).params = Jv.obj fs →
      (Jv.obj fs).hasKey "method" = true →
      (normalizeReq rd).params = (Jv.obj fs).getD "params" (.obj [])) ∧
    (∀ fs, (mergeData rd (extractTop rd)).params = Jv.obj fs →
      (Jv.obj fs).hasKey "method" = false →
      (normalizeReq rd).params = Jv.obj fs) ∧
    ((mergeData rd (extractTop rd)).params.isObj = false →
      (normalizeReq rd).params = (mergeData rd (extractTop rd)).params) := by
  refine ⟨?_, ?_, ?_⟩
  · intro fs hp hk
    unfold normalizeReq
    rw [renestParams_params, hp, if_pos]
    simp [renestTrigger, Jv.isObj, hk]
  · intro fs hp hk
    unfold normalizeReq
    rw [renestParams_params, hp, if_neg]
    simp [renestTrigger, Jv.isObj, hk]
  · intro hobj
    unfold normalizeReq
    rw [renestParams_params, if_neg]
    simp [renestTrigger, hobj]

/-- C9 witness: a `params` mapping containing `method` but no nested
`params` entry yields the empty query mapping. -/
theorem c9_witness :
    (mergeData rdC9 (extractTop rdC9)).params = Jv.obj [("method", Jv.str "GET")] ∧
    (Jv.obj [("method", Jv.str "GET")]).hasKey "method" = true ∧
    (normalizeReq rdC9).params = .obj [] :=
  ⟨rfl, rfl, (c9_renest rdC9).1 [("method", Jv.str "GET")] rfl rfl⟩

/-! ## Claim C10: empty and null update values -/

/-- C10 counterexample: an empty `url` update does not leave the stored
url unchanged — the code re-normalizes the stored value, so the reachable
stored url `http://a//` (produced by create from `http://a///`) becomes
`http://a/`. -/
theorem c10_counterexample :
    ((Jv.obj [("url", Jv.str "")]).get "url").truthy = false ∧
    normalizeBaseUrl "http://a///" = svcC10.url ∧
    (update_service (fun _ => none) svcC10 (.obj [("url", .str "")])).url = "http://a/" ∧
    (update_service (fun _ => none) svcC10 (.obj [("url", .str "")])).url ≠ svcC10.url :=
  ⟨rfl, rfl, rfl, by decide⟩

/-- C10 amended: empty/null name and summary keep the stored value;
empty/null url re-normalizes the stored url (unchanged only when already
normalization-stable); empty/null service_path clears to the empty
string; an unparseable or non-mapping request_params, response_params or
headers value clears the stored mapping to null. -/
theorem c10_amended (parse : String → Option Jv) (svc : Svc) (payload : Jv) :
    (payload.hasKey "name" = true → (payload.get "name").truthy = false →
      (update_service parse svc payload).name = svc.name) ∧
    (payload.hasKey "summary" = true → (payload.get "summary").truthy = false →
      (update_service parse svc payload).summary = svc.summary) ∧
    (payload.hasKey "url" = true → (payload.get "url").truthy = false →
      (update_service parse svc payload).url = normalizeBaseUrl svc.url) ∧
    (payload.hasKey "service_path" = true → (payload.get "service_path").truthy = false →
      (update_service parse svc payload).service_path = "") ∧
    (∀ g : JField, payload.hasKey (JField.key g) = true →
      parseJsonParams parse (payload.get (JField.key g)) = none →
      Svc.jfield (update_service parse svc payload) g = none) ∧
    (∀ v : Jv, v.isObj = false →
      (∀ s, v = Jv.str s → parse s = none ∨ ∃ j, parse s = some j ∧ j.isObj = false) →
      parseJsonParams parse v = none) := by
  have hfr : ∀ v : Jv, v.truthy = false → v.asStr = some "" ∨ v.asStr = none := by
    intro v hv
    cases v <;> simp_all [Jv.truthy, Jv.asStr]
  refine ⟨?_, ?_, ?_, ?_, ?_, ?_⟩
  · intro hk hv
    rcases hfr _ hv with h | h <;> simp [update_service, strFieldOr, hk, h]
  · intro hk hv
    rcases hfr _ hv with h | h <;> simp [update_service, strFieldOr, hk, h]
  · intro hk hv
    rcases hfr _ hv with h | h <;> simp [update_service, strFieldOr, hk, h]
  · intro hk hv
    rcases hfr _ hv with h | h <;> simp [update_service, strFieldOr, hk, h, trimChars]
  · intro g hk hp
    cases g <;> simp [update_service, Svc.jfield, JField.key, hk, hp] at *
  · intro v hobj hstr
    cases v with
    | str s =>
      rcases hstr s rfl with h | ⟨j, hj, hjo⟩
      · simp [parseJsonParams, h]
      · cases j <;> simp_all [parseJsonParams, Jv.isObj]
    | null => rfl
    | bool b => rfl
    | num n => rfl
    | arr es => rfl
    | obj fs => simp [Jv.isObj] at hobj

/-- C10 witness: a payload with null name, null url and an unparseable
request_params string — name kept, url re-normalized, mapping cleared. -/
theorem c10_amended_witness :
    (payC10.hasKey "name" = true) ∧ ((payC10.get "name").truthy = false) ∧
    (payC10.hasKey "url" = true) ∧ ((payC10.get "url").truthy = false) ∧
    (payC10.hasKey "request_params" = true) ∧
    (parseJsonParams (fun _ => none) (payC10.get "request_params") = none) ∧
    (update_service (fun _ => none) svcC10 payC10).name = svcC10.name ∧
    (update_service (fun _ => none) svcC10 payC10).url = normalizeBaseUrl svcC10.url ∧
    Svc.jfield (update_service (fun _ => none) svcC10 payC10) JField.reqP = none :=
  ⟨rfl, rfl, rfl, rfl, rfl, rfl,
   (c10_amended (fun _ => none) svcC10 payC10).1 rfl rfl,
   (c10_amended (fun _ => none) svcC10 payC10).2.2.1 rfl rfl,
   (c10_amended (fun _ => none) svcC10 payC10).2.2.2.2.1 JField.reqP rfl rfl⟩
